import Mathlib

/-
  Verification development for the shelfwave content-resolution layer.

  The definitions below are shallow embeddings of the resolution,
  upload-orchestration and repository code of the repository:
  the client resolver in BookReaderPage.tsx (loadBook) and the
  supabase api module (fetchBook, addBook, deleteBook), and the
  local file-server in server.js (multer storage, POST /api/books,
  GET /api/books).  Asynchronous calls to the storage client are
  modelled by passing their observable outcome as an explicit
  argument; filesystem state is passed explicitly.
-/

namespace Shelfwave

/-- JavaScript truthiness of an optional string field: undefined/null and
the empty string are falsy. -/
def truthyB : Option String → Bool
  | none => false
  | some s => !s.data.isEmpty

/-- Prefix test on character lists. -/
def isPre : List Char → List Char → Bool
  | [], _ => true
  | _ :: _, [] => false
  | p :: ps, x :: xs => p == x && isPre ps xs

/-- Occurrence test on character lists. -/
def containsList (pat : List Char) : List Char → Bool
  | [] => isPre pat []
  | x :: xs => isPre pat (x :: xs) || containsList pat xs

/-- Substring containment, mirroring JavaScript String.includes. -/
def containsSub (s pat : String) : Bool := containsList pat.data s.data

/-- The client-side book record (Book interface of the api module). -/
structure Book where
  id : String
  name : String
  genre : String
  url : Option String
  externalUrl : Option String
  coverImage : Option String
  description : Option String
deriving Repr, DecidableEq

/-- Observable outcome of a createSignedUrl call on the storage client,
as the calling code can distinguish it: a signed url in data, a response
with neither error nor signed url, an error returned as a value, or a
raised exception. -/
inductive SignResult where
  | ok (signedUrl : String)
  | okEmpty
  | err (msg : String)
  | thrown (msg : String)
deriving Repr, DecidableEq

/-- Whether a signing outcome delivered a signed url. -/
def SignResult.isOk : SignResult → Bool
  | .ok _ => true
  | _ => false

/-- Result of the loadBook resolution logic: the url handed to the
reader, the error message surfaced via setError, and whether the storage
adapter was called. -/
structure LoadResult where
  bookUrl : Option String
  errorMsg : Option String
  storageCalled : Bool
deriving Repr, DecidableEq

/-- The url pattern loadBook and fetchBook test with includes. -/
def supaPattern : String := "supabase.co/storage/v1/object/public/book_files"

/-- The separator loadBook and fetchBook split the public url on. -/
def splitPattern : String := "public/book_files/"

/-- Error message of the signUrlError branch of loadBook. -/
def conflatedStorageMsg : String :=
  "The book file could not be found in storage. The file may have been deleted or the storage bucket may not be properly configured."

/-- Error message of the missing-signedUrl branch of loadBook. -/
def noSignedUrlMsg : String :=
  "Could not generate a signed URL for this book file."

/-- Error message of the Bucket-not-found catch branch of loadBook. -/
def bucketNotFoundMsg : String :=
  "The storage bucket \"book_files\" was not found or is not properly configured. Please contact the administrator."

/-- Error message of the generic catch branch of loadBook. -/
def accessErrorMsg (m : String) : String := "Error accessing book file: " ++ m

/-- Error message of the no-url, no-externalUrl branch of loadBook. -/
def noReadableMsg : String := "No readable version of this book is available"

/-- The resolution logic of loadBook in BookReaderPage.tsx, applied to a
fetched book record; the outcome of the createSignedUrl call is passed
as an argument.  Mirrors its branch structure: the stored file url is
checked first, the supabase public-url pattern selects the signing path,
a returned signing error sets one fixed message, a thrown error is
classified by its text, and the external url is only consulted when the
stored file url is falsy.  The source tests that splitting on the
pattern yields more than one part, which holds exactly when the string
contains the pattern, modelled here with containsSub. -/
def loadBook (b : Book) (sign : SignResult) : LoadResult :=
  if truthyB b.url then
    let u := b.url.getD ""
    if containsSub u supaPattern then
      if containsSub u splitPattern then
        match sign with
        | .err _ => ⟨none, some conflatedStorageMsg, true⟩
        | .ok s => ⟨some s, none, true⟩
        | .okEmpty => ⟨none, some noSignedUrlMsg, true⟩
        | .thrown m =>
          if containsSub m "Bucket not found" then
            ⟨none, some bucketNotFoundMsg, true⟩
          else
            ⟨none, some (accessErrorMsg m), true⟩
      else ⟨some u, none, false⟩
    else ⟨some u, none, false⟩
  else if truthyB b.externalUrl then ⟨b.externalUrl, none, false⟩
  else ⟨none, some noReadableMsg, false⟩

/-- The render branch of BookReaderPage: the error view is shown when an
error message was set or no book url was produced. -/
def showsErrorUI (r : LoadResult) : Bool := r.errorMsg.isSome || !r.bookUrl.isSome

/-- The url-resolution step of fetchBook in the part_000 api revision:
for a stored url matching the supabase public pattern it requests a
signed url with 24 hour expiry and keeps the original url whenever no
signed url comes back (returned errors are ignored and exceptions are
caught). -/
def fetchBookUrl (url0 : Option String) (sign : SignResult) : Option String :=
  match url0 with
  | none => none
  | some u =>
    if !u.data.isEmpty && containsSub u supaPattern then
      if containsSub u splitPattern then
        match sign with
        | .ok s => some s
        | _ => some u
      else some u
    else some u

/-- The public-form url the storage client constructs for a path with
getPublicUrl.  Modelled from the supabase client: a pure string
construction over the bucket and path that cannot fail. -/
def publicUrlFor (path : String) : String :=
  "https://project.supabase.co/storage/v1/object/public/book_files/" ++ path

/-- Final persisted state and observable calls of one addBook run:
the thrown error if any, whether the insert committed a record, the
record fields as left in the books table, and every createSignedUrl
call made, as (path, expirySeconds). -/
structure AddResult where
  error : Option String
  inserted : Bool
  stored_external_url : Option String
  stored_book_file_url : Option String
  stored_cover_image_url : Option String
  signCalls : List (String × Nat)
deriving Repr, DecidableEq

/-- addBook of the part_000 api revision.  The record is inserted first
with external_url taken from the form; the bucket list is checked; the
book file upload is followed by a createSignedUrl call with a 7 day
expiry whose result, when present, becomes the persisted book_file_url,
with the public url as fallback; the cover upload stores its public
url; a final update writes both urls onto the record.  Outcomes of the
client calls are passed as arguments. -/
def addBookP0 (userId bookId : String) (bookUrl : Option String)
    (fileExt coverExt : Option String)
    (hasUser insertOk : Bool) (buckets : Except String (List String))
    (uploadFileOk uploadCoverOk updateOk : Bool) (sign : SignResult) : AddResult :=
  if !hasUser then ⟨some "User not authenticated", false, none, none, none, []⟩
  else if !insertOk then ⟨some "Failed to create book record", false, none, none, none, []⟩
  else
    let extUrl := if truthyB bookUrl then bookUrl else none
    match buckets with
    | .error _ => ⟨some "Could not access storage buckets", true, extUrl, none, none, []⟩
    | .ok names =>
      if !(names.contains "book_files") then
        ⟨some "Storage bucket book_files does not exist", true, extUrl, none, none, []⟩
      else
        let fileStep : Except String (Option String × List (String × Nat)) :=
          match fileExt with
          | none => .ok (none, [])
          | some ext =>
            if !uploadFileOk then .error "file upload failed"
            else
              let path := userId ++ "/" ++ bookId ++ "/book." ++ ext
              let url := match sign with
                | .ok s => some s
                | _ => some (publicUrlFor path)
              .ok (url, [(path, 60 * 60 * 24 * 7)])
        match fileStep with
        | .error m => ⟨some m, true, extUrl, none, none, []⟩
        | .ok (fUrl, calls) =>
          let coverStep : Except String (Option String) :=
            match coverExt with
            | none => .ok none
            | some ext =>
              if !uploadCoverOk then .error "cover upload failed"
              else .ok (some (publicUrlFor (userId ++ "/" ++ bookId ++ "/cover." ++ ext)))
          match coverStep with
          | .error m => ⟨some m, true, extUrl, none, none, calls⟩
          | .ok cUrl =>
            if !updateOk then ⟨some "Failed to update book record", true, extUrl, none, none, calls⟩
            else ⟨none, true, extUrl, fUrl, cUrl, calls⟩

/-- addBook of the current api.ts revision: same orchestration but with
no bucket check and no signing call; only the public url of each upload
is written back onto the record. -/
def addBookApi (userId bookId : String) (bookUrl : Option String)
    (fileExt coverExt : Option String)
    (hasUser insertOk uploadFileOk uploadCoverOk updateOk : Bool) : AddResult :=
  if !hasUser then ⟨some "User not authenticated", false, none, none, none, []⟩
  else if !insertOk then ⟨some "Failed to create book record", false, none, none, none, []⟩
  else
    let extUrl := if truthyB bookUrl then bookUrl else none
    let fileStep : Except String (Option String) :=
      match fileExt with
      | none => .ok none
      | some ext =>
        if !uploadFileOk then .error "file upload failed"
        else .ok (some (publicUrlFor (userId ++ "/" ++ bookId ++ "/book." ++ ext)))
    match fileStep with
    | .error m => ⟨some m, true, extUrl, none, none, []⟩
    | .ok fUrl =>
      let coverStep : Except String (Option String) :=
        match coverExt with
        | none => .ok none
        | some ext =>
          if !uploadCoverOk then .error "cover upload failed"
          else .ok (some (publicUrlFor (userId ++ "/" ++ bookId ++ "/cover." ++ ext)))
      match coverStep with
      | .error m => ⟨some m, true, extUrl, none, none, []⟩
      | .ok cUrl =>
        if !updateOk then ⟨some "Failed to update book record", true, extUrl, none, none, []⟩
        else ⟨none, true, extUrl, fUrl, cUrl, []⟩

/-- Observable outcome of a supabase call as the calling code can
distinguish it: a value, an error returned in the error field, or a
raised exception. -/
inductive SbCall (α : Type) where
  | ok (val : α)
  | errVal (msg : String)
  | thrown (msg : String)
deriving Repr, DecidableEq

/-- The two url columns of a stored book row that deleteBook consults. -/
structure DelRow where
  book_file_url : Option String
  cover_image_url : Option String
deriving Repr, DecidableEq

/-- Trace of one deleteBook run: which storage calls were made, whether
the database delete was executed, and the thrown error, none on
success. -/
structure DeleteResult where
  storageListCalled : Bool
  storageRemoveCalled : Bool
  dbDeleteAttempted : Bool
  thrownError : Option String
deriving Repr, DecidableEq

/-- deleteBook of the part_000 api revision.  The record is fetched
first (a fetch error aborts); when a user is present and the row holds
any stored url the storage folder is listed and, when non-empty, its
files are removed, with every storage failure (returned or thrown)
caught and ignored; the database delete always follows. -/
def deleteBookP0 (fetchRes : SbCall DelRow) (hasUser : Bool)
    (listRes : SbCall (List String)) (removeRes : SbCall Unit)
    (dbDeleteErr : Option String) : DeleteResult :=
  match fetchRes with
  | .errVal m => ⟨false, false, false, some m⟩
  | .thrown m => ⟨false, false, false, some m⟩
  | .ok row =>
    let doStorage := hasUser && (truthyB row.book_file_url || truthyB row.cover_image_url)
    let calls :=
      if doStorage then
        match listRes with
        | .ok files =>
          if files.length > 0 then
            match removeRes with
            | _ => (true, true)
          else (true, false)
        | .errVal _ => (true, false)
        | .thrown _ => (true, false)
      else (false, false)
    match dbDeleteErr with
    | some m => ⟨calls.1, calls.2, true, some m⟩
    | none => ⟨calls.1, calls.2, true, none⟩

/-- The metadata record server.js writes into book.json and returns
from POST /api/books. -/
structure BookData where
  id : String
  name : String
  genre : String
  url : String
deriving Repr, DecidableEq

/-- Content of one file in a book directory: raw bytes, a parsed
book.json record, or the text of aboutBook.md. -/
inductive FileContent where
  | data (bytes : String)
  | json (b : BookData)
  | text (s : String)
deriving Repr, DecidableEq

/-- A book directory: file name to content, in write order. -/
abbrev BookDir := List (String × FileContent)

/-- The books directory of server.js: directory name to contents, in
creation order. -/
abbrev Fs := List (String × BookDir)

/-- writeFileSync inside one directory: overwrite in place or append. -/
def dirWrite (d : BookDir) (fname : String) (c : FileContent) : BookDir :=
  match d with
  | [] => [(fname, c)]
  | (n, v) :: rest => if n = fname then (n, c) :: rest else (n, v) :: dirWrite rest fname c

/-- Read one file of one directory. -/
def dirRead (d : BookDir) (fname : String) : Option FileContent :=
  match d with
  | [] => none
  | (n, v) :: rest => if n = fname then some v else dirRead rest fname

/-- Look a directory up by name. -/
def fsReadDir (fs : Fs) (dname : String) : Option BookDir :=
  match fs with
  | [] => none
  | (n, d) :: rest => if n = dname then some d else fsReadDir rest dname

/-- mkdirSync when missing: a new directory is appended, so enumeration
order is creation order. -/
def fsEnsureDir (fs : Fs) (dname : String) : Fs :=
  if (fsReadDir fs dname).isSome then fs else fs ++ [(dname, [])]

/-- Write one file, creating the directory when missing. -/
def fsWrite (fs : Fs) (dname fname : String) (c : FileContent) : Fs :=
  match fs with
  | [] => [(dname, [(fname, c)])]
  | (n, d) :: rest =>
    if n = dname then (n, dirWrite d fname c) :: rest
    else (n, d) :: fsWrite rest dname fname c

/-- Read one file of the filesystem. -/
def fsRead (fs : Fs) (dname fname : String) : Option FileContent :=
  match fsReadDir fs dname with
  | none => none
  | some d => dirRead d fname

/-- The directory-name sanitizer of server.js: every character that is
not an ASCII letter or digit becomes an underscore. -/
def sanitize (s : String) : String :=
  String.mk (s.data.map (fun c => if c.isAlphanum then c else '_'))

/-- The characters strictly before the first dot, none when no dot
occurs. -/
def upToDot : List Char → Option (List Char)
  | [] => none
  | c :: cs => if c == '.' then some [] else (upToDot cs).map (fun l => c :: l)

/-- path.extname: the extension of the last path segment, taken from
its last dot; empty for dotless names and for a leading dot with no
later dot.  Computed on the reversed character list: the last dot of
the base name is the first dot of its reversal. -/
def extname (s : String) : String :=
  let revBase := s.data.reverse.takeWhile (fun c => c != '/')
  match upToDot revBase with
  | none => ""
  | some revExt =>
    if (revBase.drop (revExt.length + 1)).isEmpty then ""
    else String.mk ('.' :: revExt.reverse)

/-- One multipart submission to POST /api/books: the text fields and
the optional uploads, each upload as (original name, bytes). -/
structure Submission where
  name : Option String
  genre : Option String
  description : Option String
  bookFile : Option (String × String)
  coverImage : Option (String × String)
  bookUrl : Option String
deriving Repr, DecidableEq

/-- Response of POST /api/books as far as the claims need it. -/
inductive PostResult where
  | badRequest (msg : String)
  | created (b : BookData)
  | serverError (msg : String)
deriving Repr, DecidableEq

/-- The default aboutBook.md body when the description is falsy. -/
def defaultAbout (name : String) : String :=
  "# " ++ name ++ "\n\nNo description provided."

/-- The multer diskStorage phase that runs before the route handler:
each upload is stored as book/cover plus its original extension under
the directory named by the sanitized name field.  When a file part is
present but the name field is absent, the destination callback
dereferences undefined and the request fails with a server error. -/
def multerPhase (fs : Fs) (sub : Submission) : Except String Fs :=
  if sub.bookFile.isNone && sub.coverImage.isNone then .ok fs
  else
    match sub.name with
    | none => .error "multer destination failed: name field is undefined"
    | some n =>
      let d := sanitize n
      let fs1 :=
        match sub.bookFile with
        | none => fs
        | some (fn, bytes) =>
          fsWrite (fsEnsureDir fs d) d ("book" ++ extname fn) (FileContent.data bytes)
      let fs2 :=
        match sub.coverImage with
        | none => fs1
        | some (fn, bytes) =>
          fsWrite (fsEnsureDir fs1 d) d ("cover" ++ extname fn) (FileContent.data bytes)
      .ok fs2

/-- The POST /api/books route of server.js, multer phase included.
download is the body obtained by downloading the supplied url, none
when the download fails; it is only consulted when a truthy bookUrl is
present.  On success the record is written to book.json, the
description to aboutBook.md, and the record is returned with 201. -/
def postBooks (fs : Fs) (sub : Submission) (bookId : String)
    (download : Option String) : Fs × PostResult :=
  match multerPhase fs sub with
  | .error m => (fs, .serverError m)
  | .ok fs1 =>
    if !truthyB sub.name || !truthyB sub.genre then
      (fs1, .badRequest "Name and genre are required")
    else if !sub.bookFile.isSome && !truthyB sub.bookUrl then
      (fs1, .badRequest "Either book file or book URL is required")
    else
      let n := sub.name.getD ""
      let d := sanitize n
      let fs2 := fsEnsureDir fs1 d
      let afterDl : Except Unit Fs :=
        if truthyB sub.bookUrl then
          let url := sub.bookUrl.getD ""
          let ext := if extname url = "" then ".pdf" else extname url
          match download with
          | none => .error ()
          | some bytes => .ok (fsWrite fs2 d ("book" ++ ext) (FileContent.data bytes))
        else .ok fs2
      match afterDl with
      | .error _ => (fs2, .badRequest "Failed to download book from URL")
      | .ok fs3 =>
        let bd : BookData := ⟨bookId, n, sub.genre.getD "", "/api/books/" ++ bookId ++ "/file"⟩
        let fs4 := fsWrite fs3 d "book.json" (FileContent.json bd)
        let about :=
          match sub.description with
          | some s => if s.data.isEmpty then defaultAbout n else s
          | none => defaultAbout n
        let fs5 := fsWrite fs4 d "aboutBook.md" (FileContent.text about)
        (fs5, .created bd)

/-- loadBookData of server.js: the parsed book.json of a directory,
none when the file is absent or not a record. -/
def loadBookData (fs : Fs) (folder : String) : Option BookData :=
  match fsRead fs folder "book.json" with
  | some (FileContent.json b) => some b
  | _ => none

/-- The cover check of the listing routes. -/
def hasCover (fs : Fs) (folder : String) : Bool :=
  (fsRead fs folder "cover.jpg").isSome || (fsRead fs folder "cover.png").isSome

/-- One entry of the GET /api/books response. -/
structure BookEntry where
  book : BookData
  coverImage : Option String
deriving Repr, DecidableEq

/-- GET /api/books: every directory with a readable book.json, in
directory-enumeration order, with the cover url attached when a cover
file exists. -/
def listBooks (fs : Fs) : List BookEntry :=
  (fs.map (fun p => p.1)).filterMap (fun folder =>
    match loadBookData fs folder with
    | none => none
    | some b =>
      some ⟨b, if hasCover fs folder then some ("/api/books/" ++ b.id ++ "/cover") else none⟩)

/-- The ids of the listing, in response order. -/
def listIds (fs : Fs) : List String := (listBooks fs).map (fun e => e.book.id)

/-- GET /api/books/:id/file file lookup: the first file of the book
directory whose name starts with book. and does not end with .json. -/
def getBookFileContent (fs : Fs) (folder : String) : Option FileContent :=
  match fsReadDir fs folder with
  | none => none
  | some d =>
    (d.find? (fun p =>
      isPre "book.".data p.1.data && !(isPre ".json".data.reverse p.1.data.reverse))).map
      (fun p => p.2)

/-- A row of the books table as fetchBooks reads it. -/
structure BookRow where
  id : String
  name : String
  genre : String
  book_file_url : Option String
  external_url : Option String
  cover_image_url : Option String
  description : Option String
  created_at : Nat
deriving Repr, DecidableEq

/-- Insert one row into a list kept in descending created_at order. -/
def insertDesc (r : BookRow) : List BookRow → List BookRow
  | [] => [r]
  | x :: xs => if x.created_at ≤ r.created_at then r :: x :: xs else x :: insertDesc r xs

/-- The order clause of fetchBooks in api.ts, order by created_at with
ascending false.  Modelled as a sort of the table rows into descending
created_at order. -/
def sortByCreatedDesc (rows : List BookRow) : List BookRow :=
  rows.foldr insertDesc []

/-- The row-to-Book mapping of fetchBooks. -/
def rowToBook (r : BookRow) : Book :=
  ⟨r.id, r.name, r.genre, r.book_file_url, r.external_url, r.cover_image_url, r.description⟩

/-- fetchBooks of api.ts over a table state. -/
def fetchBooksSb (db : List BookRow) : List Book :=
  (sortByCreatedDesc db).map rowToBook

/-- The request fails inside the multer destination callback: a file
part is present but the name field is absent. -/
def multerCrashes (sub : Submission) : Bool :=
  sub.name.isNone && (sub.bookFile.isSome || sub.coverImage.isSome)

/-- Characterization of the 400 responses of POST /api/books: multer
survived, and either a required field is missing, no content source was
given, or the supplied url failed to download. -/
def expectedBadB (sub : Submission) (download : Option String) : Bool :=
  !multerCrashes sub &&
    (!truthyB sub.name || !truthyB sub.genre
      || (!sub.bookFile.isSome && !truthyB sub.bookUrl)
      || (truthyB sub.bookUrl && download.isNone))

/-- Characterization of the 201 responses of POST /api/books. -/
def expectedCreatedB (sub : Submission) (download : Option String) : Bool :=
  !multerCrashes sub && truthyB sub.name && truthyB sub.genre
    && (sub.bookFile.isSome || truthyB sub.bookUrl)
    && !(truthyB sub.bookUrl && download.isNone)

/-- Whether a response is a 400. -/
def PostResult.isBad : PostResult → Bool
  | .badRequest _ => true
  | _ => false

/-- Whether a response is a 201. -/
def PostResult.isCreated : PostResult → Bool
  | .created _ => true
  | _ => false

/-- A record that reaches the signing path of loadBook: a truthy stored
file url matching the supabase public pattern and its split separator. -/
def storageUrlB (b : Book) : Bool :=
  truthyB b.url && containsSub (b.url.getD "") supaPattern
    && containsSub (b.url.getD "") splitPattern

/-- A record holding both an external link and a stale storage file
url. -/
def bStale : Book :=
  ⟨"b1", "Dune", "SciFi",
    some "https://p.supabase.co/storage/v1/object/public/book_files/u1/b1/book.pdf",
    some "https://example.com/x.pdf", none, none⟩

/-- A record with no stored file url and no external link. -/
def bEmpty : Book := ⟨"b2", "Empty", "Misc", none, none, none, none⟩

/-- C1 counterexample: a record carrying an external link alongside a
stale storage file url is resolved through the storage path, so the
signing call is made and the returned url is not the external link. -/
theorem loadBook_stale_url_shadows_external :
    (loadBook bStale (SignResult.ok "SIGNED")).storageCalled = true
    ∧ (loadBook bStale (SignResult.ok "SIGNED")).bookUrl ≠ bStale.externalUrl := by
  decide

/-- C1 amended: the external url is returned verbatim and the storage
adapter is never called exactly when the stored file url is falsy; the
stored file url is checked first. -/
theorem loadBook_external_without_storage (b : Book) (s : SignResult)
    (h1 : truthyB b.url = false) (h2 : truthyB b.externalUrl = true) :
    loadBook b s = ⟨b.externalUrl, none, false⟩ := by
  simp [loadBook, h1, h2]

/-- Witness for the amended C1 theorem at a concrete record. -/
theorem loadBook_external_without_storage_witness :
    loadBook ⟨"b3", "Dune", "SciFi", none, some "https://example.com/x.pdf", none, none⟩
        SignResult.okEmpty
      = ⟨some "https://example.com/x.pdf", none, false⟩ :=
  loadBook_external_without_storage _ _ (by decide) (by decide)

/-- C2 counterexample: a bucket-missing signing error and an
object-missing signing error, both delivered as returned error values,
produce the identical user-visible outcome, whose message names both
possible causes at once. -/
theorem loadBook_conflates_bucket_and_object :
    loadBook bStale (SignResult.err "Bucket not found")
      = loadBook bStale (SignResult.err "Object not found")
    ∧ (loadBook bStale (SignResult.err "Bucket not found")).errorMsg
      = some conflatedStorageMsg := by
  decide

/-- C2 amended: the bucket-misconfiguration outcome is distinguished
only when the signing call throws an exception whose text names the
missing bucket; a signing failure returned as an error value yields the
single conflated message whatever its cause. -/
theorem loadBook_bucket_distinct_only_when_thrown (b : Book) (m1 m2 : String)
    (hb : storageUrlB b = true) (hm : containsSub m1 "Bucket not found" = true) :
    (loadBook b (SignResult.thrown m1)).errorMsg = some bucketNotFoundMsg
    ∧ (loadBook b (SignResult.err m2)).errorMsg = some conflatedStorageMsg
    ∧ bucketNotFoundMsg ≠ conflatedStorageMsg := by
  have h := hb
  simp only [storageUrlB, Bool.and_eq_true] at h
  obtain ⟨⟨h1, h2⟩, h3⟩ := h
  refine ⟨?_, ?_, by decide⟩ <;> simp [loadBook, h1, h2, h3, hm]

/-- Witness for the amended C2 theorem at a concrete record and
concrete error texts. -/
theorem loadBook_bucket_distinct_only_when_thrown_witness :
    (loadBook bStale (SignResult.thrown "StorageApiError: Bucket not found")).errorMsg
      = some bucketNotFoundMsg
    ∧ (loadBook bStale (SignResult.err "object does not exist")).errorMsg
      = some conflatedStorageMsg
    ∧ bucketNotFoundMsg ≠ conflatedStorageMsg :=
  loadBook_bucket_distinct_only_when_thrown bStale _ _ (by decide) (by decide)

/-- C3 counterexample: when signing fails with a returned error,
loadBook surfaces a storage-error message at once: the public-form url
held by the record is not used as a fallback and no url is produced. -/
theorem loadBook_no_fallback_on_sign_error :
    (loadBook bStale (SignResult.err "sign failure")).bookUrl = none
    ∧ (loadBook bStale (SignResult.err "sign failure")).bookUrl ≠ bStale.url
    ∧ (loadBook bStale (SignResult.err "sign failure")).errorMsg = some conflatedStorageMsg := by
  decide

/-- C3 amended: the public-form fallback lives in fetchBook: whenever
the signing call does not yield a signed url the original public-form
url is kept and no error outcome is ever produced. -/
theorem fetchBookUrl_keeps_original_on_sign_failure (u : String) (s : SignResult)
    (h : s.isOk = false) :
    fetchBookUrl (some u) s = some u := by
  cases s <;> simp [SignResult.isOk] at h <;> simp [fetchBookUrl]

/-- Witness for the amended C3 theorem at a concrete url and a thrown
signing failure. -/
theorem fetchBookUrl_keeps_original_on_sign_failure_witness :
    fetchBookUrl
        (some "https://p.supabase.co/storage/v1/object/public/book_files/u1/b1/book.pdf")
        (SignResult.thrown "network error")
      = some "https://p.supabase.co/storage/v1/object/public/book_files/u1/b1/book.pdf" :=
  fetchBookUrl_keeps_original_on_sign_failure _ _ (by decide)

/-- C4 counterexample: a record with no stored file url and no external
link produces an error outcome: the no-readable message is set through
the same error channel, and the page shows the same error view it shows
for a genuine storage failure. -/
theorem loadBook_contentless_is_error_outcome :
    (loadBook bEmpty SignResult.okEmpty).errorMsg = some noReadableMsg
    ∧ showsErrorUI (loadBook bEmpty SignResult.okEmpty) = true
    ∧ showsErrorUI (loadBook bStale (SignResult.err "boom")) = true := by
  decide

/-- C4 amended: a content-less record deterministically yields the
fixed no-readable message with no storage call and no thrown failure,
but the message is delivered through the error state, not as a distinct
non-error outcome. -/
theorem loadBook_contentless_fixed_message (b : Book) (s : SignResult)
    (h1 : truthyB b.url = false) (h2 : truthyB b.externalUrl = false) :
    loadBook b s = ⟨none, some noReadableMsg, false⟩ := by
  simp [loadBook, h1, h2]

/-- Witness for the amended C4 theorem at a concrete record. -/
theorem loadBook_contentless_fixed_message_witness :
    loadBook bEmpty (SignResult.err "unused") = ⟨none, some noReadableMsg, false⟩ :=
  loadBook_contentless_fixed_message _ _ (by decide) (by decide)

/-- C5 counterexample: the part_000 addBook persists the signed url it
obtained at upload time: the books row keeps the exact url returned by
the signing call, which was made with a 7 day expiry. -/
theorem addBookP0_persists_signed_url :
    (addBookP0 "u1" "b1" none (some "pdf") none true true (Except.ok ["book_files"])
        true true true (SignResult.ok "SIGNED7D")).stored_book_file_url = some "SIGNED7D"
    ∧ (addBookP0 "u1" "b1" none (some "pdf") none true true (Except.ok ["book_files"])
        true true true (SignResult.ok "SIGNED7D")).signCalls
      = [("u1/b1/book.pdf", 60 * 60 * 24 * 7)]
    ∧ (addBookP0 "u1" "b1" none (some "pdf") none true true (Except.ok ["book_files"])
        true true true (SignResult.ok "SIGNED7D")).error = none := by
  decide

/-- C5 amended: the api.ts addBook never signs and never persists a
signed url: no signing call is made and the persisted file url is
either absent or the permanent public-form url of the uploaded path. -/
theorem addBookApi_never_persists_signed_url (userId bookId : String)
    (bookUrl : Option String) (fileExt coverExt : Option String)
    (hasUser insertOk uploadFileOk uploadCoverOk updateOk : Bool) :
    (addBookApi userId bookId bookUrl fileExt coverExt hasUser insertOk uploadFileOk
        uploadCoverOk updateOk).signCalls = []
    ∧ ((addBookApi userId bookId bookUrl fileExt coverExt hasUser insertOk uploadFileOk
          uploadCoverOk updateOk).stored_book_file_url = none
       ∨ (addBookApi userId bookId bookUrl fileExt coverExt hasUser insertOk uploadFileOk
            uploadCoverOk updateOk).stored_book_file_url
          = some (publicUrlFor (userId ++ "/" ++ bookId ++ "/book." ++ fileExt.getD ""))) := by
  cases hasUser <;> cases insertOk <;> cases fileExt <;> cases coverExt <;>
    cases uploadFileOk <;> cases uploadCoverOk <;> cases updateOk <;>
    simp [addBookApi]

/-- C7: once the record fetch succeeds, the database delete is always
executed, whatever the storage listing and removal outcomes, and the
whole deletion succeeds whenever the database delete itself does:
storage cleanup failures and already-absent objects never block it. -/
theorem deleteBookP0_always_deletes_record (row : DelRow) (hasUser : Bool)
    (listRes : SbCall (List String)) (removeRes : SbCall Unit) (dbErr : Option String) :
    (deleteBookP0 (SbCall.ok row) hasUser listRes removeRes dbErr).dbDeleteAttempted = true
    ∧ (deleteBookP0 (SbCall.ok row) hasUser listRes removeRes none).thrownError = none := by
  cases dbErr <;> cases listRes <;> cases removeRes <;> simp [deleteBookP0]

theorem dirRead_dirWrite_self (d : BookDir) (f : String) (c : FileContent) :
    dirRead (dirWrite d f c) f = some c := by
  induction d with
  | nil => simp [dirWrite, dirRead]
  | cons p rest ih =>
    obtain ⟨n, v⟩ := p
    by_cases h : n = f
    · simp [dirWrite, dirRead, h]
    · simp [dirWrite, dirRead, h, ih]

theorem dirRead_dirWrite_ne {f' f : String} (d : BookDir) (c : FileContent)
    (h : f' ≠ f) : dirRead (dirWrite d f' c) f = dirRead d f := by
  induction d with
  | nil => simp [dirWrite, dirRead, h]
  | cons p rest ih =>
    obtain ⟨n, v⟩ := p
    by_cases hn : n = f'
    · subst hn
      simp [dirWrite, dirRead, h]
    · by_cases hf : n = f
      · subst hf
        simp [dirWrite, dirRead, hn]
      · simp [dirWrite, dirRead, hn, hf, ih]

theorem fsRead_fsWrite_self (fs : Fs) (d f : String) (c : FileContent) :
    fsRead (fsWrite fs d f c) d f = some c := by
  induction fs with
  | nil => simp [fsWrite, fsRead, fsReadDir, dirRead, dirWrite]
  | cons p rest ih =>
    obtain ⟨n, dir⟩ := p
    by_cases h : n = d
    · simp [fsWrite, fsRead, fsReadDir, h, dirRead_dirWrite_self]
    · simp [fsWrite, fsRead, fsReadDir, h] at ih ⊢
      exact ih

theorem fsRead_fsWrite_ne_file {f' f : String} (fs : Fs) (d : String) (c : FileContent)
    (h : f' ≠ f) : fsRead (fsWrite fs d f' c) d f = fsRead fs d f := by
  induction fs with
  | nil => simp [fsWrite, fsRead, fsReadDir, dirRead, dirWrite, h]
  | cons p rest ih =>
    obtain ⟨n, dir⟩ := p
    by_cases hn : n = d
    · simp [fsWrite, fsRead, fsReadDir, hn, dirRead_dirWrite_ne _ _ h]
    · simp [fsWrite, fsRead, fsReadDir, hn] at ih ⊢
      exact ih

theorem fsReadDir_append_of_none {fs : Fs} {d : String} (dir0 : BookDir)
    (h : fsReadDir fs d = none) :
    fsReadDir (fs ++ [(d, dir0)]) d = some dir0 := by
  induction fs with
  | nil => simp [fsReadDir]
  | cons p rest ih =>
    obtain ⟨n, v⟩ := p
    by_cases hn : n = d
    · simp [fsReadDir, hn] at h
    · simp [fsReadDir, hn] at h ⊢
      exact ih h

theorem fsRead_fsEnsureDir (fs : Fs) (d f : String) :
    fsRead (fsEnsureDir fs d) d f = fsRead fs d f := by
  unfold fsEnsureDir
  cases h : fsReadDir fs d with
  | some dir => simp [h]
  | none =>
    simp [h, fsRead, fsReadDir_append_of_none [] h, dirRead]

/-- The book.json written by the success path of postBooks survives the
following aboutBook.md write. -/
theorem fsRead_meta_writes (fs : Fs) (d : String) (bd : BookData) (c : FileContent) :
    fsRead (fsWrite (fsWrite fs d "book.json" (FileContent.json bd)) d "aboutBook.md" c)
        d "book.json"
      = some (FileContent.json bd) := by
  rw [fsRead_fsWrite_ne_file _ _ _ (by decide), fsRead_fsWrite_self]

theorem mem_insertDesc {y r : BookRow} {l : List BookRow} :
    y ∈ insertDesc r l ↔ y = r ∨ y ∈ l := by
  induction l with
  | nil => simp [insertDesc]
  | cons x xs ih =>
    simp only [insertDesc]
    split
    · simp [List.mem_cons]
    · simp only [List.mem_cons, ih]
      tauto

theorem pairwise_insertDesc {r : BookRow} {l : List BookRow}
    (h : l.Pairwise (fun a b => b.created_at ≤ a.created_at)) :
    (insertDesc r l).Pairwise (fun a b => b.created_at ≤ a.created_at) := by
  induction l with
  | nil => simp [insertDesc]
  | cons x xs ih =>
    rcases List.pairwise_cons.mp h with ⟨hx, hxs⟩
    simp only [insertDesc]
    split
    · rename_i hle
      refine List.pairwise_cons.mpr ⟨?_, h⟩
      intro y hy
      rcases List.mem_cons.mp hy with rfl | hy'
      · exact hle
      · exact le_trans (hx y hy') hle
    · rename_i hgt
      refine List.pairwise_cons.mpr ⟨?_, ih hxs⟩
      intro y hy
      rcases mem_insertDesc.mp hy with rfl | hy'
      · exact le_of_not_le hgt
      · exact hx y hy'

theorem insertDesc_perm (r : BookRow) (l : List BookRow) :
    (insertDesc r l).Perm (r :: l) := by
  induction l with
  | nil => simp [insertDesc]
  | cons x xs ih =>
    simp only [insertDesc]
    split
    · exact List.Perm.refl _
    · exact (ih.cons x).trans (List.Perm.swap r x xs)

/-- C9 amended: the supabase realization of the listing is ordered most
recently created first: the rows are returned in descending created_at
order and are exactly the table rows; the local file-server listing is
covered by the counterexample. -/
theorem fetchBooksSb_sorted_desc (db : List BookRow) :
    (sortByCreatedDesc db).Pairwise (fun a b => b.created_at ≤ a.created_at)
    ∧ (sortByCreatedDesc db).Perm db
    ∧ fetchBooksSb db = (sortByCreatedDesc db).map rowToBook := by
  refine ⟨?_, ?_, rfl⟩
  · induction db with
    | nil => simp [sortByCreatedDesc]
    | cons x xs ih => exact pairwise_insertDesc ih
  · induction db with
    | nil => simp [sortByCreatedDesc]
    | cons x xs ih => exact (insertDesc_perm x (sortByCreatedDesc xs)).trans (ih.cons x)

/-- The first book of the C9 counterexample state. -/
def subAlpha : Submission := ⟨some "Alpha", some "G", none, some ("a.pdf", "A"), none, none⟩

/-- The second book of the C9 counterexample state. -/
def subBeta : Submission := ⟨some "Beta", some "G", none, some ("b.pdf", "B"), none, none⟩

/-- The local file-server state after creating id1 and then id2. -/
def fsTwoBooks : Fs := (postBooks (postBooks [] subAlpha "id1" none).1 subBeta "id2" none).1

/-- C9 counterexample: the local file-server listing returns two books
in creation order, oldest first, so not most-recently-created first. -/
theorem listBooks_not_most_recent_first :
    listIds fsTwoBooks = ["id1", "id2"] ∧ listIds fsTwoBooks ≠ ["id2", "id1"] := by
  decide

/-- The C6 counterexample submission: both an uploaded file and a url
are supplied. -/
def subBoth : Submission :=
  ⟨some "Dune", some "SciFi", some "about", some ("x.pdf", "FILEBYTES"), none,
    some "http://host/y.pdf"⟩

/-- C6 counterexample: with both sources supplied, the stored book.pdf
holds the bytes downloaded from the url, not the uploaded bytes, and
the file endpoint serves those downloaded bytes: the download runs
after the multer write and overwrites it. -/
theorem postBooks_url_overwrites_uploaded_file :
    fsRead (postBooks [] subBoth "id1" (some "URLBYTES")).1 "Dune" "book.pdf"
      = some (FileContent.data "URLBYTES")
    ∧ FileContent.data "URLBYTES" ≠ FileContent.data "FILEBYTES"
    ∧ getBookFileContent (postBooks [] subBoth "id1" (some "URLBYTES")).1 "Dune"
      = some (FileContent.data "URLBYTES") := by
  decide

/-- C6 amended: when both a file and a url are supplied, the persisted
record references the server's own file endpoint, never the external
url, but the stored artifact bytes are the downloaded ones, which
overwrite the uploaded file of the same extension. -/
theorem postBooks_both_sources_url_bytes_win
    (n g fname fbytes uurl ubytes bookId : String)
    (hn : n.data.isEmpty = false) (hg : g.data.isEmpty = false)
    (hu : uurl.data.isEmpty = false)
    (hf : extname fname = ".pdf") (hx : extname uurl = ".pdf") :
    (postBooks [] ⟨some n, some g, none, some (fname, fbytes), none, some uurl⟩ bookId
        (some ubytes)).2
      = PostResult.created ⟨bookId, n, g, "/api/books/" ++ bookId ++ "/file"⟩
    ∧ fsRead (postBooks [] ⟨some n, some g, none, some (fname, fbytes), none, some uurl⟩
          bookId (some ubytes)).1 (sanitize n) "book.pdf"
      = some (FileContent.data ubytes) := by
  simp [postBooks, multerPhase, fsEnsureDir, fsReadDir, fsWrite, dirWrite, fsRead, dirRead,
    truthyB, hn, hg, hu, hf, hx]

/-- Witness for the amended C6 theorem at concrete inputs. -/
theorem postBooks_both_sources_url_bytes_win_witness :
    (postBooks [] ⟨some "Dune", some "SciFi", none, some ("x.pdf", "AAA"), none,
        some "http://host/y.pdf"⟩ "id9" (some "BBB")).2
      = PostResult.created ⟨"id9", "Dune", "SciFi", "/api/books/" ++ "id9" ++ "/file"⟩
    ∧ fsRead (postBooks [] ⟨some "Dune", some "SciFi", none, some ("x.pdf", "AAA"), none,
          some "http://host/y.pdf"⟩ "id9" (some "BBB")).1 (sanitize "Dune") "book.pdf"
      = some (FileContent.data "BBB") :=
  postBooks_both_sources_url_bytes_win "Dune" "SciFi" "x.pdf" "AAA" "http://host/y.pdf"
    "BBB" "id9" (by decide) (by decide) (by decide) (by decide) (by decide)

/-- C10: creating a second book whose title sanitizes to the same
string as an existing book writes into the existing directory,
overwriting its book.json and aboutBook.md, after which the earlier id
no longer appears in the listing. -/
theorem postBooks_sanitized_collision
    (n1 n2 g1 g2 b1 b2 id1 id2 : String)
    (h0 : sanitize n1 = sanitize n2)
    (hn1 : n1.data.isEmpty = false) (hg1 : g1.data.isEmpty = false)
    (hn2 : n2.data.isEmpty = false) (hg2 : g2.data.isEmpty = false)
    (hid : id1 ≠ id2) :
    listIds (postBooks
        (postBooks [] ⟨some n1, some g1, none, some ("a.pdf", b1), none, none⟩ id1 none).1
        ⟨some n2, some g2, none, some ("b.pdf", b2), none, none⟩ id2 none).1 = [id2]
    ∧ id1 ∉ listIds (postBooks
        (postBooks [] ⟨some n1, some g1, none, some ("a.pdf", b1), none, none⟩ id1 none).1
        ⟨some n2, some g2, none, some ("b.pdf", b2), none, none⟩ id2 none).1
    ∧ fsRead (postBooks
        (postBooks [] ⟨some n1, some g1, none, some ("a.pdf", b1), none, none⟩ id1 none).1
        ⟨some n2, some g2, none, some ("b.pdf", b2), none, none⟩ id2 none).1
        (sanitize n1) "book.json"
      = some (FileContent.json ⟨id2, n2, g2, "/api/books/" ++ id2 ++ "/file"⟩)
    ∧ fsRead (postBooks
        (postBooks [] ⟨some n1, some g1, none, some ("a.pdf", b1), none, none⟩ id1 none).1
        ⟨some n2, some g2, none, some ("b.pdf", b2), none, none⟩ id2 none).1
        (sanitize n1) "aboutBook.md"
      = some (FileContent.text (defaultAbout n2)) := by
  have ea : extname "a.pdf" = ".pdf" := by decide
  have eb : extname "b.pdf" = ".pdf" := by decide
  simp [postBooks, multerPhase, fsEnsureDir, fsReadDir, fsWrite, dirWrite, fsRead, dirRead,
    truthyB, hn1, hg1, hn2, hg2, h0, ea, eb, listIds, listBooks, loadBookData, hasCover, hid]

/-- Witness for the C10 theorem at two concrete colliding titles. -/
theorem postBooks_sanitized_collision_witness :
    listIds (postBooks
        (postBooks [] ⟨some "My Book!", some "G1", none, some ("a.pdf", "A"), none, none⟩
          "id1" none).1
        ⟨some "My@Book?", some "G2", none, some ("b.pdf", "B"), none, none⟩ "id2" none).1
      = ["id2"]
    ∧ "id1" ∉ listIds (postBooks
        (postBooks [] ⟨some "My Book!", some "G1", none, some ("a.pdf", "A"), none, none⟩
          "id1" none).1
        ⟨some "My@Book?", some "G2", none, some ("b.pdf", "B"), none, none⟩ "id2" none).1
    ∧ fsRead (postBooks
        (postBooks [] ⟨some "My Book!", some "G1", none, some ("a.pdf", "A"), none, none⟩
          "id1" none).1
        ⟨some "My@Book?", some "G2", none, some ("b.pdf", "B"), none, none⟩ "id2" none).1
        (sanitize "My Book!") "book.json"
      = some (FileContent.json ⟨"id2", "My@Book?", "G2", "/api/books/" ++ "id2" ++ "/file"⟩)
    ∧ fsRead (postBooks
        (postBooks [] ⟨some "My Book!", some "G1", none, some ("a.pdf", "A"), none, none⟩
          "id1" none).1
        ⟨some "My@Book?", some "G2", none, some ("b.pdf", "B"), none, none⟩ "id2" none).1
        (sanitize "My Book!") "aboutBook.md"
      = some (FileContent.text (defaultAbout "My@Book?")) :=
  postBooks_sanitized_collision "My Book!" "My@Book?" "G1" "G2" "A" "B" "id1" "id2"
    (by decide) (by decide) (by decide) (by decide) (by decide) (by decide)

/-- The C8 counterexample submission: name and genre present and a url
supplied whose download fails. -/
def subDlFail : Submission :=
  ⟨some "Dune", some "SciFi", none, none, none, some "http://host/y.pdf"⟩

/-- C8 counterexample: a submission with name, genre and a book url is
answered with 400 when the download fails, a case outside the exact set
of 400 conditions the claim states. -/
theorem postBooks_download_failure_400 :
    (postBooks [] subDlFail "id1" none).2
      = PostResult.badRequest "Failed to download book from URL"
    ∧ truthyB subDlFail.name = true
    ∧ truthyB subDlFail.genre = true
    ∧ truthyB subDlFail.bookUrl = true := by
  decide

/-- Whether book.json of the submission's directory holds exactly the
record a 201 response reports. -/
def persistedMatches (fs : Fs) (sub : Submission) (bookId : String) : Bool :=
  fsRead fs (sanitize (sub.name.getD "")) "book.json"
    == some (FileContent.json
        ⟨bookId, sub.name.getD "", sub.genre.getD "", "/api/books/" ++ bookId ++ "/file"⟩)

/-- Whether every file of a directory holds raw bytes. -/
def dirDataOnly (d : BookDir) : Bool :=
  d.all (fun p => match p.2 with | FileContent.data _ => true | _ => false)

/-- Whether every file of the filesystem holds raw bytes, as the multer
phase leaves it. -/
def fsDataOnly (fs : Fs) : Bool := fs.all (fun p => dirDataOnly p.2)

theorem dirDataOnly_dirWrite {d : BookDir} (f b : String)
    (h : dirDataOnly d = true) :
    dirDataOnly (dirWrite d f (FileContent.data b)) = true := by
  induction d with
  | nil => simp [dirWrite, dirDataOnly]
  | cons p rest ih =>
    obtain ⟨n, v⟩ := p
    simp only [dirDataOnly, List.all_cons, Bool.and_eq_true] at h
    by_cases hn : n = f
    · simp [dirWrite, hn, dirDataOnly, h.2]
    · simp only [dirDataOnly, List.all_cons, Bool.and_eq_true] at ih ⊢
      simp [dirWrite, hn, h.1, ih h.2]

theorem fsDataOnly_fsWrite {fs : Fs} (dn f b : String)
    (h : fsDataOnly fs = true) :
    fsDataOnly (fsWrite fs dn f (FileContent.data b)) = true := by
  induction fs with
  | nil => simp [fsWrite, fsDataOnly, dirDataOnly, dirWrite]
  | cons p rest ih =>
    obtain ⟨n, d⟩ := p
    simp only [fsDataOnly, List.all_cons, Bool.and_eq_true] at h
    by_cases hn : n = dn
    · simp [fsWrite, hn, fsDataOnly, dirDataOnly_dirWrite f b h.1, h.2]
    · simp only [fsDataOnly, List.all_cons, Bool.and_eq_true] at ih ⊢
      simp [fsWrite, hn, h.1, ih h.2]

theorem fsDataOnly_fsEnsureDir {fs : Fs} (dn : String)
    (h : fsDataOnly fs = true) :
    fsDataOnly (fsEnsureDir fs dn) = true := by
  unfold fsEnsureDir
  split
  · exact h
  · simp only [fsDataOnly, List.all_append] at h ⊢
    rw [h]
    simp [dirDataOnly]

theorem dirRead_ne_json_of_dataOnly {d : BookDir} (f : String) (bd : BookData)
    (h : dirDataOnly d = true) :
    dirRead d f ≠ some (FileContent.json bd) := by
  induction d with
  | nil => simp [dirRead]
  | cons q qs ih =>
    obtain ⟨fn, fc⟩ := q
    simp only [dirDataOnly, List.all_cons, Bool.and_eq_true] at h
    by_cases hf : fn = f
    · simp only [dirRead, if_pos hf]
      intro hr
      have h1 := h.1
      rw [Option.some.inj hr] at h1
      simp at h1
    · simp only [dirRead, if_neg hf]
      exact ih h.2

theorem fsRead_ne_json_of_dataOnly {fs : Fs} (dn f : String) (bd : BookData)
    (h : fsDataOnly fs = true) :
    fsRead fs dn f ≠ some (FileContent.json bd) := by
  induction fs with
  | nil => simp [fsRead, fsReadDir]
  | cons p rest ih =>
    obtain ⟨n, d⟩ := p
    simp only [fsDataOnly, List.all_cons, Bool.and_eq_true] at h
    by_cases hn : n = dn
    · simp only [fsRead, fsReadDir, if_pos hn]
      exact dirRead_ne_json_of_dataOnly f bd h.1
    · simp only [fsRead, fsReadDir, if_neg hn]
      exact ih h.2

theorem persistedMatches_false_of_dataOnly {fs : Fs} (sub : Submission) (bookId : String)
    (h : fsDataOnly fs = true) :
    persistedMatches fs sub bookId = false := by
  unfold persistedMatches
  cases hr : fsRead fs (sanitize (sub.name.getD "")) "book.json" with
  | none => rfl
  | some c =>
    cases c with
    | data b => rfl
    | text s => rfl
    | json bd => exact absurd hr (fsRead_ne_json_of_dataOnly _ _ bd h)

theorem multerCrashes_of_error {fs : Fs} {sub : Submission} {m : String}
    (h : multerPhase fs sub = .error m) : multerCrashes sub = true := by
  unfold multerPhase at h
  unfold multerCrashes
  rcases sub with ⟨nm, g, desc, bf, ci, bu⟩
  rcases nm with _ | n <;> rcases bf with _ | f <;> rcases ci with _ | c <;> simp_all

theorem multerOk_of_not_crash {fs : Fs} {sub : Submission}
    (h : multerCrashes sub = false) : multerPhase fs sub ≠ .error m := by
  unfold multerPhase
  unfold multerCrashes at h
  rcases sub with ⟨nm, g, desc, bf, ci, bu⟩
  rcases nm with _ | n <;> rcases bf with _ | f <;> rcases ci with _ | c <;> simp_all

theorem multerCrashes_false_of_ok {fs fs' : Fs} {sub : Submission}
    (h : multerPhase fs sub = .ok fs') : multerCrashes sub = false := by
  unfold multerPhase at h
  unfold multerCrashes
  rcases sub with ⟨nm, g, desc, bf, ci, bu⟩
  rcases nm with _ | n <;> rcases bf with _ | f <;> rcases ci with _ | c <;> simp_all

theorem multerPhase_dataOnly {fs : Fs} {sub : Submission} {fs' : Fs}
    (h0 : fsDataOnly fs = true) (h : multerPhase fs sub = .ok fs') :
    fsDataOnly fs' = true := by
  unfold multerPhase at h
  rcases sub with ⟨nm, g, desc, bf, ci, bu⟩
  rcases nm with _ | n <;> rcases bf with _ | ⟨fn, fb⟩ <;> rcases ci with _ | ⟨cn, cb⟩ <;>
    simp_all <;> subst h <;>
    first
    | exact fsDataOnly_fsWrite _ _ _ (fsDataOnly_fsEnsureDir _ h0)
    | exact fsDataOnly_fsWrite _ _ _
        (fsDataOnly_fsEnsureDir _ (fsDataOnly_fsWrite _ _ _ (fsDataOnly_fsEnsureDir _ h0)))

/-- C8 amended: starting from an empty books directory, POST /api/books
answers 400 exactly when the multer phase survived and the name or
genre field is falsy, no content source is supplied, or the supplied
url fails to download; it answers 201 exactly in the remaining
multer-surviving cases, and then book.json holds exactly the returned
record; a file part together with a missing name field dies in the
multer destination callback instead, as a server error. -/
theorem postBooks_status_spec (sub : Submission) (bookId : String) (dl : Option String) :
    (postBooks [] sub bookId dl).2.isBad = expectedBadB sub dl
    ∧ (postBooks [] sub bookId dl).2.isCreated = expectedCreatedB sub dl
    ∧ persistedMatches (postBooks [] sub bookId dl).1 sub bookId = expectedCreatedB sub dl := by
  cases hm : multerPhase [] sub with
  | error m =>
    have hc := multerCrashes_of_error hm
    simp [postBooks, hm, PostResult.isBad, PostResult.isCreated, expectedBadB,
      expectedCreatedB, hc, persistedMatches, fsRead, fsReadDir]
  | ok fs1 =>
    have hc := multerCrashes_false_of_ok hm
    have h1 : fsDataOnly fs1 = true := multerPhase_dataOnly (by rfl) hm
    simp only [postBooks, hm]
    by_cases hv : (!truthyB sub.name || !truthyB sub.genre) = true
    · have hv2 : (!truthyB sub.name) = true ∨ (!truthyB sub.genre) = true := by
        simpa using hv
      have hfb : expectedBadB sub dl = true := by
        unfold expectedBadB
        rcases hv2 with ha | ha <;> simp [hc, ha]
      have hfc : expectedCreatedB sub dl = false := by
        unfold expectedCreatedB
        rcases hv2 with ha | ha <;> rw [Bool.not_eq_true'] at ha <;> simp [hc, ha]
      simp [hv, PostResult.isBad, PostResult.isCreated, hfb, hfc,
        persistedMatches_false_of_dataOnly sub bookId h1]
    · obtain ⟨hn1, hg1⟩ : truthyB sub.name = true ∧ truthyB sub.genre = true := by
        cases hx : truthyB sub.name <;> cases hy : truthyB sub.genre <;> simp_all
      by_cases hs : (!sub.bookFile.isSome && !truthyB sub.bookUrl) = true
      · have hs2 : sub.bookFile.isSome = false ∧ truthyB sub.bookUrl = false := by
          cases hx : sub.bookFile.isSome <;> cases hy : truthyB sub.bookUrl <;> simp_all
        have hsn : sub.bookFile = none := by
          cases hbf : sub.bookFile <;> simp_all
        have hfb : expectedBadB sub dl = true := by
          unfold expectedBadB
          simp [hc, hsn, hs2.2]
        have hfc : expectedCreatedB sub dl = false := by
          unfold expectedCreatedB
          simp [hsn, hs2.2]
        simp [hv, hsn, hs2.2, PostResult.isBad, PostResult.isCreated, hfb, hfc,
          persistedMatches_false_of_dataOnly sub bookId h1]
      · by_cases hbu : truthyB sub.bookUrl = true
        · cases dl with
          | none =>
            have hfb : expectedBadB sub none = true := by
              unfold expectedBadB
              simp [hc, hbu]
            have hfc : expectedCreatedB sub none = false := by
              unfold expectedCreatedB
              simp [hbu]
            simp [hv, hbu, PostResult.isBad, PostResult.isCreated, hfb, hfc,
              persistedMatches_false_of_dataOnly sub bookId (fsDataOnly_fsEnsureDir _ h1)]
          | some db =>
            have hfb : expectedBadB sub (some db) = false := by
              unfold expectedBadB
              simp [hn1, hg1, hbu]
            have hfc : expectedCreatedB sub (some db) = true := by
              unfold expectedCreatedB
              simp [hc, hn1, hg1, hbu]
            simp [hv, hbu, PostResult.isBad, PostResult.isCreated, hfb, hfc,
              persistedMatches, fsRead_meta_writes]
        · have hf1 : sub.bookFile.isSome = true := by
            cases hx : sub.bookFile.isSome <;> simp_all
          have hne : sub.bookFile ≠ none := by
            cases hbf : sub.bookFile <;> simp_all
          have hbu' : truthyB sub.bookUrl = false := by
            cases hy : truthyB sub.bookUrl <;> simp_all
          have hfb : expectedBadB sub dl = false := by
            unfold expectedBadB
            simp [hn1, hg1, hf1, hne, hbu']
          have hfc : expectedCreatedB sub dl = true := by
            unfold expectedCreatedB
            simp [hc, hn1, hg1, hf1, hbu']
            try exact fun _ => hf1
          simp [hv, hne, hbu', PostResult.isBad, PostResult.isCreated, hfb, hfc,
            persistedMatches, fsRead_meta_writes]

end Shelfwave
